import Mathlib

/-!
Verification development for the scanoss.py concurrent scan-dispatch engine.

The definitions below are a shallow embedding of `src/scanoss/scanossapi.py`
(`ScanossApi.__init__`, `ScanossApi.scan`) and
`src/scanoss/threadedscanning.py` (`ThreadedScanning.__init__`,
`ThreadedScanning.run`, `ThreadedScanning.complete`,
`ThreadedScanning.worker_post`, `ThreadedScanning.__count_files_in_wfp`,
`ThreadedScanning.update_bar`).

Network effects are modelled by an attempt oracle (`Nat → AttemptOutcome`)
giving the outcome of each HTTP POST attempt, and by recording the sleeps the
code performs.  File-system writes (the bad-JSON diagnostic artifact) are
modelled by returning the file name and content that the code would write.
Python string truthiness (`if wfp:`, `if resp:`, `if scan_id`) is modelled
explicitly wherever the code relies on it.
-/

/-- Substring test: Python's `pat in s` on strings, as a decidable Bool. -/
def strContains (pat s : String) : Bool := decide (pat.data <:+: s.data)

/-- Split a character list at every occurrence of `c`, keeping empty
pieces: Python's `str.split` with an explicit separator. -/
def splitCharsOn (c : Char) : List Char → List (List Char)
  | [] => [[]]
  | x :: xs =>
    let r := splitCharsOn c xs
    if x = c then [] :: r
    else
      match r with
      | [] => [[x]]
      | y :: ys => (x :: y) :: ys

/-- Python's `s.split('\n')`. -/
def pyLines (s : String) : List String :=
  (splitCharsOn (Char.ofNat 10) s.data).map String.mk

instance {ε α : Type} [DecidableEq ε] [DecidableEq α] : DecidableEq (Except ε α)
  | .error e, .error f =>
    if h : e = f then .isTrue (by rw [h]) else .isFalse (fun hh => by cases hh; exact h rfl)
  | .error _, .ok _ => .isFalse (fun hh => by cases hh)
  | .ok _, .error _ => .isFalse (fun hh => by cases hh)
  | .ok a, .ok b =>
    if h : a = b then .isTrue (by rw [h]) else .isFalse (fun hh => by cases hh; exact h rfl)

/-- A parsed JSON result object, keyed by file path (abstracted): only its
shape as a dictionary matters to this core (Python truthiness of a dict is
emptiness of its entries). -/
structure JsonObj where
  entries : List (String × List String)
deriving DecidableEq

/-- What `ScanossApi.scan` can hand back to a worker: the raw text body (for
xml-style formats) or a parsed JSON object. -/
inductive ScanResult where
  | raw (s : String)
  | json (j : JsonObj)
deriving DecidableEq

/-- Python truthiness of a scan result (`if resp:` in `worker_post`): a raw
text body is truthy iff non-empty, a JSON dict is truthy iff non-empty. -/
def truthyResult : ScanResult → Bool
  | .raw s => !(s == "")
  | .json j => !j.entries.isEmpty

/-- An HTTP response as `scan` observes it: status code, raw text body, and
the result of `r.json()` (`none` when the body fails to parse as JSON). -/
structure Resp where
  status : Nat
  text : String
  json : Option JsonObj
deriving DecidableEq

/-- Outcome of one `requests.post` attempt inside `ScanossApi.scan`:
a `requests.exceptions.Timeout`/`ConnectionError`, some other exception,
or a response object (`none` models an empty/falsy response object). -/
inductive AttemptOutcome where
  | connError
  | otherError
  | resp (r : Option Resp)
deriving DecidableEq

/-- Result of the retry `while` loop in `ScanossApi.scan`: either the valid
response it broke out with or the message of the exception it raised, plus
the list of `time.sleep` delays performed and the number of POST attempts. -/
structure LoopResult where
  result : Except String Resp
  sleeps : List Nat
  attempts : Nat

/-- `ScanossApi.scan`, lines 107-142: the retry loop
`retry = 0; while retry <= 5: retry += 1; ...`.  The fuel argument is
`6 - retry` measured at the top of the loop, so the loop body with
`retry <= 5` corresponds to fuel `6..1` and the attempt number after the
`retry += 1` increment is `6 - fuel`; the guard `retry > 5` holds exactly
when the fuel inside the body is `0`.  Fuel `0` at the top of the loop is
the normal loop exit followed by the defensive `if not r: raise`. -/
def scanLoop (att : Nat → AttemptOutcome) (url : String) : Nat → LoopResult
  | 0 => ⟨.error ("ERROR: The SCANOSS API request response object is empty for " ++ url), [], 0⟩
  | fuel + 1 =>
    match att (6 - fuel) with
    | .connError =>
      if fuel = 0 then
        ⟨.error ("ERROR: The SCANOSS API request timed out for " ++ url), [], 1⟩
      else
        let rest := scanLoop att url fuel
        ⟨rest.result, 5 :: rest.sleeps, rest.attempts + 1⟩
    | .otherError =>
      ⟨.error ("ERROR: The SCANOSS API request failed for " ++ url), [], 1⟩
    | .resp none =>
      if fuel = 0 then
        ⟨.error ("ERROR: The SCANOSS API request response object is empty for " ++ url), [], 1⟩
      else
        let rest := scanLoop att url fuel
        ⟨rest.result, 5 :: rest.sleeps, rest.attempts + 1⟩
    | .resp (some r) =>
      if r.status ≥ 400 then
        if fuel = 0 then
          ⟨.error ("ERROR: The SCANOSS API returned the following error: HTTP " ++ toString r.status ++ ", " ++ r.text), [], 1⟩
        else
          let rest := scanLoop att url fuel
          ⟨rest.result, 5 :: rest.sleeps, rest.attempts + 1⟩
      else
        ⟨.ok r, [], 1⟩

/-- An attempt outcome that the retry loop treats as retryable (transient):
connection/timeout error, empty response object, or HTTP status >= 400. -/
def retryableFailure : AttemptOutcome → Bool
  | .connError => true
  | .otherError => false
  | .resp none => true
  | .resp (some r) => decide (r.status ≥ 400)

/-- `ScanossApi.__init__`, line 67: `self.timeout = timeout if timeout > 5 else 120`. -/
def effTimeout (t : Int) : Int := if t > 5 then t else 120

/-- `ScanossApi.scan`, line 151: name of the bad-JSON diagnostic file.
`scan_id` is Python-truthy iff it is given and non-zero. -/
def badJsonName (scanId : Option Nat) (ctime : Nat) : String :=
  match scanId with
  | some i =>
    if i ≠ 0 then "bad_json-" ++ toString i ++ "-" ++ toString ctime ++ ".txt"
    else "bad_json-" ++ toString ctime ++ ".txt"
  | none => "bad_json-" ++ toString ctime ++ ".txt"

/-- The f-string rendering of `scan_files = \x7b'file': (uuid + ".wfp", wfp)\x7d`
written into the diagnostic file (Python `repr` of the dict, for payloads
that need no escape sequences). -/
def scanFilesRepr (uuidHex wfp : String) : String :=
  "\x7b\x27file\x27: (\x27" ++ uuidHex ++ ".wfp\x27, \x27" ++ wfp ++ "\x27)\x7d"

/-- `ScanossApi.scan`, lines 154-157: the full content written to the
bad-JSON diagnostic file. -/
def badJsonContent (uuidHex wfp text : String) : String :=
  "---WFP Begin---\n" ++ scanFilesRepr uuidHex wfp ++ "\n---WFP End---\n---Bad JSON Begin---\n"
    ++ text ++ "---Bad JSON End---\n"

/-- What `ScanossApi.scan` produces after a valid response: the returned
value (`none` models Python `None`) and the diagnostic artifact
(name, content) written on a JSON parse failure, if any. -/
structure ScanOutcome where
  result : Option ScanResult
  diag : Option (String × String)
deriving DecidableEq

/-- `ScanossApi.scan`, lines 143-160: return `r.text` raw for xml-style
formats, otherwise parse JSON; on parse failure write a diagnostic file
and return `None`. -/
def scanParse (fmt : String) (r : Resp) (uuidHex wfp : String)
    (scanId : Option Nat) (ctime : Nat) : ScanOutcome :=
  if strContains "xml" fmt then ⟨some (.raw r.text), none⟩
  else
    match r.json with
    | some j => ⟨some (.json j), none⟩
    | none => ⟨none, some (badJsonName scanId ctime, badJsonContent uuidHex wfp r.text)⟩

/-- `ScanossApi.scan` end to end: run the retry loop, then the
parse/diagnose step; `.error` models an uncaught raised exception. -/
def scan (att : Nat → AttemptOutcome) (url fmt uuidHex wfp : String)
    (scanId : Option Nat) (ctime : Nat) : Except String ScanOutcome :=
  match (scanLoop att url 6).result with
  | .error m => .error m
  | .ok r => .ok (scanParse fmt r uuidHex wfp scanId ctime)

/-- `MAX_ALLOWED_THREADS` in `threadedscanning.py`. -/
def MAX_ALLOWED_THREADS : Nat := 30

/-- `WFP_FILE_START` in `threadedscanning.py`. -/
def WFP_FILE_START : String := "file="

/-- `ThreadedScanning.__init__`, lines 72-74: clamp the requested thread
count to `MAX_ALLOWED_THREADS`; the Bool records whether the clamp warning
notice was issued. -/
def init_nb_threads (t : Nat) : Nat × Bool :=
  if t > MAX_ALLOWED_THREADS then (MAX_ALLOWED_THREADS, true) else (t, false)

/-- `ThreadedScanning.run`, lines 175-186: reduce the thread count to the
queue depth when the input queue is smaller, then start that many worker
threads. -/
def run_nb_threads (t q : Nat) : Nat :=
  let nb := (init_nb_threads t).1
  if q < nb then q else nb

/-- `ThreadedScanning.__count_files_in_wfp`: count the lines of the WFP
containing the `file=` marker; `if wfp:` makes `None` and the empty string
yield 0 without scanning. -/
def count_files_in_wfp (wfp : Option String) : Nat :=
  match wfp with
  | none => 0
  | some s =>
    if s = "" then 0
    else (pyLines s).foldl (fun c line => if strContains WFP_FILE_START line then c + 1 else c) 0

/-- The spec's formula for the file count: the number of newline-separated
lines of the payload that contain the file-boundary marker as a substring. -/
def count_files_spec (w : String) : Nat :=
  ((pyLines w).filter (fun line => strContains WFP_FILE_START line)).length

/-- One dequeued work item as a worker sees it: the WFP payload string and
what `self.scanapi.scan` did for it (`.error` models a raised exception,
`.ok` its return value, with `none` for Python `None`). -/
structure WorkItemRes where
  wfp : String
  outcome : Except String (Option ScanResult)
deriving DecidableEq

/-- Shared state accumulated over a run of `ThreadedScanning`:
`barCount` is `self._bar_count`, `errors` is `self._errors`, `output` is
the output queue, `tasksDone` counts `self.inputs.task_done()` calls and
`scanCalls` counts invocations of `self.scanapi.scan`. -/
structure RunState where
  barCount : Nat
  errors : Bool
  output : List ScanResult
  tasksDone : Nat
  scanCalls : Nat
deriving DecidableEq

/-- `ThreadedScanning.worker_post`, lines 216-232: the processing of one
dequeued item.  On a scan exception the error flag is set and `task_done`
runs only under Python's `if wfp:`, i.e. only for a non-empty payload. -/
def worker_item (st : RunState) (it : WorkItemRes) : RunState :=
  let count := count_files_in_wfp (some it.wfp)
  let st := { st with scanCalls := st.scanCalls + 1 }
  match it.outcome with
  | .ok resp =>
    let st1 :=
      match resp with
      | some r => if truthyResult r then { st with output := st.output ++ [r] } else st
      | none => st
    let st2 := { st1 with barCount := st1.barCount + count }
    { st2 with tasksDone := st2.tasksDone + 1 }
  | .error _ =>
    let st1 := { st with errors := true }
    if it.wfp ≠ "" then { st1 with tasksDone := st1.tasksDone + 1 } else st1

/-- A run of `ThreadedScanning` over the items that get dequeued, in
dequeue order: `startupOk = false` models an exception while starting the
worker threads (`run`, lines 182-189), which sets the error flag. -/
def runModel (startupOk : Bool) (items : List WorkItemRes) : RunState :=
  let st0 : RunState := { barCount := 0, errors := !startupOk, output := [], tasksDone := 0, scanCalls := 0 }
  items.foldl worker_item st0

/-- `ThreadedScanning.run`, line 192: `return False if self._errors else True`. -/
def run_returns (startupOk : Bool) (items : List WorkItemRes) : Bool :=
  !(runModel startupOk items).errors

/-- Python truthiness of the scan outcome as an error: whether
`self.scanapi.scan` raised for this item. -/
def itemErrored (it : WorkItemRes) : Bool :=
  match it.outcome with
  | .error _ => true
  | .ok _ => false

/-- Sum of the per-item file counts over all dequeued items. -/
def totalCount (items : List WorkItemRes) : Nat :=
  (items.map (fun it => count_files_in_wfp (some it.wfp))).sum

/-- Sum of the per-item file counts over the dequeued items whose scan call
returned without raising. -/
def okCount (items : List WorkItemRes) : Nat :=
  ((items.filter (fun it => !itemErrored it)).map (fun it => count_files_in_wfp (some it.wfp))).sum

/-! ## Helper lemmas -/

lemma foldl_count_eq_filter_length (p : String → Bool) (l : List String) (n : Nat) :
    l.foldl (fun c x => if p x then c + 1 else c) n = n + (l.filter p).length := by
  induction l generalizing n with
  | nil => simp
  | cons hd tl ih =>
    simp only [List.foldl_cons, List.filter_cons]
    by_cases h : p hd
    · simp only [h, if_pos, ih, List.length_cons]
      omega
    · simp only [h, if_neg, ih]
      simp

lemma worker_item_errors (st : RunState) (it : WorkItemRes) :
    (worker_item st it).errors = (st.errors || itemErrored it) := by
  unfold worker_item itemErrored
  cases it.outcome with
  | ok resp =>
    cases resp with
    | some r => by_cases h : truthyResult r <;> simp [h]
    | none => simp
  | error m => by_cases h : it.wfp ≠ "" <;> simp [h]

lemma worker_item_scanCalls (st : RunState) (it : WorkItemRes) :
    (worker_item st it).scanCalls = st.scanCalls + 1 := by
  unfold worker_item
  cases it.outcome with
  | ok resp =>
    cases resp with
    | some r => by_cases h : truthyResult r <;> simp [h]
    | none => simp
  | error m => by_cases h : it.wfp ≠ "" <;> simp [h]

lemma worker_item_barCount (st : RunState) (it : WorkItemRes) :
    (worker_item st it).barCount =
      st.barCount + (if itemErrored it then 0 else count_files_in_wfp (some it.wfp)) := by
  unfold worker_item itemErrored
  cases it.outcome with
  | ok resp =>
    cases resp with
    | some r => by_cases h : truthyResult r <;> simp [h]
    | none => simp
  | error m => by_cases h : it.wfp ≠ "" <;> simp [h]

lemma foldl_errors (items : List WorkItemRes) (st : RunState) :
    (items.foldl worker_item st).errors = (st.errors || items.any itemErrored) := by
  induction items generalizing st with
  | nil => simp
  | cons hd tl ih =>
    simp only [List.foldl_cons, List.any_cons, ih, worker_item_errors, Bool.or_assoc]

lemma foldl_scanCalls (items : List WorkItemRes) (st : RunState) :
    (items.foldl worker_item st).scanCalls = st.scanCalls + items.length := by
  induction items generalizing st with
  | nil => simp
  | cons hd tl ih =>
    simp only [List.foldl_cons, List.length_cons, ih, worker_item_scanCalls]
    omega

lemma foldl_barCount (items : List WorkItemRes) (st : RunState) :
    (items.foldl worker_item st).barCount = st.barCount + okCount items := by
  induction items generalizing st with
  | nil => simp [okCount]
  | cons hd tl ih =>
    simp only [List.foldl_cons, ih, worker_item_barCount]
    unfold okCount
    by_cases h : itemErrored hd
    · simp [List.filter_cons, h]
    · simp [List.filter_cons, h]
      omega

lemma okCount_le_totalCount (items : List WorkItemRes) :
    okCount items ≤ totalCount items := by
  induction items with
  | nil => simp [okCount, totalCount]
  | cons hd tl ih =>
    unfold okCount totalCount at ih ⊢
    by_cases h : itemErrored hd
    · simp [List.filter_cons, h]
      omega
    · simp [List.filter_cons, h]
      omega

lemma scanLoop_attempts_le (att : Nat → AttemptOutcome) (url : String) (fuel : Nat) :
    (scanLoop att url fuel).attempts ≤ fuel := by
  induction fuel with
  | zero => simp [scanLoop]
  | succ n ih =>
    simp only [scanLoop]
    cases hatt : att (6 - n) with
    | connError =>
      by_cases hn : n = 0
      · simp [hn]
      · simp only [if_neg hn]
        simp
        omega
    | otherError => simp
    | resp rr =>
      cases rr with
      | none =>
        by_cases hn : n = 0
        · simp [hn]
        · simp only [if_neg hn]
          simp
          omega
      | some r =>
        by_cases hs : r.status ≥ 400
        · by_cases hn : n = 0
          · simp [hs, hn]
          · simp only [if_pos hs, if_neg hn]
            simp
            omega
        · simp [hs]

lemma scanLoop_conn_step (att : Nat → AttemptOutcome) (url : String) (fuel n : Nat)
    (hn : 6 - fuel = n) (h : att n = .connError) (hf : fuel ≠ 0) :
    scanLoop att url (fuel + 1) =
      ⟨(scanLoop att url fuel).result, 5 :: (scanLoop att url fuel).sleeps,
       (scanLoop att url fuel).attempts + 1⟩ := by
  subst hn
  simp only [scanLoop, h]
  simp [hf]

lemma scanLoop_success_step (att : Nat → AttemptOutcome) (url : String) (fuel n : Nat)
    (r : Resp) (hn : 6 - fuel = n) (h : att n = .resp (some r)) (hs : ¬ r.status ≥ 400) :
    scanLoop att url (fuel + 1) = ⟨.ok r, [], 1⟩ := by
  subst hn
  simp only [scanLoop, h]
  simp [hs]

lemma scanLoop_retry_step (att : Nat → AttemptOutcome) (url : String) (fuel n : Nat)
    (hn : 6 - fuel = n) (h : retryableFailure (att n) = true) (hf : fuel ≠ 0) :
    scanLoop att url (fuel + 1) =
      ⟨(scanLoop att url fuel).result, 5 :: (scanLoop att url fuel).sleeps,
       (scanLoop att url fuel).attempts + 1⟩ := by
  subst hn
  simp only [scanLoop]
  cases hatt : att (6 - fuel) with
  | connError => simp [hf]
  | otherError =>
    rw [hatt] at h
    simp [retryableFailure] at h
  | resp rr =>
    cases rr with
    | none => simp [hf]
    | some r =>
      rw [hatt] at h
      have hs : r.status ≥ 400 := by simpa [retryableFailure] using h
      simp [hs, hf]

lemma scanLoop_all_fail (att : Nat → AttemptOutcome) (url : String)
    (hf : ∀ i, 1 ≤ i → i ≤ 6 → retryableFailure (att i) = true) :
    ∀ fuel, fuel ≤ 6 → ∃ m, (scanLoop att url fuel).result = Except.error m := by
  intro fuel
  induction fuel with
  | zero => exact fun _ => ⟨_, rfl⟩
  | succ n ih =>
    intro hle
    have hi := hf (6 - n) (by omega) (by omega)
    simp only [scanLoop]
    cases hatt : att (6 - n) with
    | connError =>
      by_cases hn : n = 0
      · subst hn
        simp
      · simp only [if_neg hn]
        obtain ⟨m, hm⟩ := ih (by omega)
        exact ⟨m, by simp [hm]⟩
    | otherError => simp
    | resp rr =>
      cases rr with
      | none =>
        by_cases hn : n = 0
        · subst hn
          simp
        · simp only [if_neg hn]
          obtain ⟨m, hm⟩ := ih (by omega)
          exact ⟨m, by simp [hm]⟩
      | some r =>
        rw [hatt] at hi
        have hs : r.status ≥ 400 := by
          simpa [retryableFailure] using hi
        by_cases hn : n = 0
        · simp [if_pos hs, hn]
        · simp only [if_pos hs, if_neg hn]
          obtain ⟨m, hm⟩ := ih (by omega)
          exact ⟨m, by simp [hm]⟩

/-! ## Claim theorems -/

/-- C5: for every requested thread count `t` and starting queue depth `q`,
the number of worker threads started by `ThreadedScanning.run` equals
`min(t, 30, q)`, never exceeding the hard cap of 30 (with the clamp warning
notice issued exactly when the request exceeds the cap) nor the queue depth
at run start. -/
theorem run_threads_min_cap (t q : Nat) :
    run_nb_threads t q = min t (min MAX_ALLOWED_THREADS q) ∧
    run_nb_threads t q ≤ MAX_ALLOWED_THREADS ∧
    run_nb_threads t q ≤ q ∧
    ((init_nb_threads t).2 = true ↔ MAX_ALLOWED_THREADS < t) := by
  unfold run_nb_threads init_nb_threads MAX_ALLOWED_THREADS
  refine ⟨?_, ?_, ?_, ?_⟩
  · by_cases h : t > 30 <;> simp only [h, if_pos, if_neg, ite_true, ite_false, Nat.min_def] <;>
      split_ifs <;> omega
  · by_cases h : t > 30 <;> simp only [h, ite_true, ite_false] <;> split_ifs <;> omega
  · by_cases h : t > 30 <;> simp only [h, ite_true, ite_false] <;> split_ifs <;> omega
  · by_cases h : t > 30 <;> simp [h]

/-- C7: the claim states the effective timeout equals `t` whenever
`t >= 5`, but `ScanossApi.__init__` uses the strict comparison
`timeout > 5`: at the boundary value `t = 5` (which satisfies the stated
minimum) the code silently replaces it with the default 120. -/
theorem effTimeout_boundary : effTimeout 5 = 120 ∧ (5 : Int) ≥ 5 ∧ effTimeout 5 ≠ 5 := by
  decide

/-- C9: for every payload, `ThreadedScanning.__count_files_in_wfp` equals
the number of newline-separated lines containing the `file=` marker as a
substring, and equals 0 for `None` and for the empty string. -/
theorem count_files_correct (w : Option String) :
    count_files_in_wfp w = w.elim 0 count_files_spec ∧
    count_files_in_wfp none = 0 ∧
    count_files_in_wfp (some "") = 0 := by
  refine ⟨?_, rfl, rfl⟩
  cases w with
  | none => rfl
  | some s =>
    simp only [count_files_in_wfp, count_files_spec, Option.elim]
    by_cases h : s = ""
    · subst h
      simp only [if_pos rfl]
      decide
    · simp only [if_neg h]
      rw [foldl_count_eq_filter_length]
      simp [count_files_spec]

/-- C10: when the input queue is empty at `run` time (and start-up
succeeds), no worker threads are started, no scan calls are made, the run
reports success and the result collection is empty. -/
theorem run_empty_queue (t : Nat) :
    run_nb_threads t 0 = 0 ∧
    runModel true [] = ⟨0, false, [], 0, 0⟩ ∧
    run_returns true [] = true ∧
    (runModel true []).output = [] := by
  refine ⟨?_, rfl, rfl, rfl⟩
  unfold run_nb_threads init_nb_threads MAX_ALLOWED_THREADS
  by_cases h : t > 30 <;> simp [h]

/-- A run on which the API call raises for the only dequeued item, which
carries one file. -/
def failOneItem : List WorkItemRes :=
  [⟨"file=abc,1,a.c", .error "ERROR: The SCANOSS API request timed out"⟩]

/-- C2 counterexample: on a run whose single dequeued item (one file)
fails with a raised scan error, the progress counter total is 0, not the
per-item file count 1: a dequeued item whose API call raised contributes
nothing to `_bar_count` (the worker only calls `update_bar` on the
non-raising path). -/
theorem bar_count_misses_failed_items :
    (runModel true failOneItem).barCount = 0 ∧
    totalCount failOneItem = 1 ∧
    (runModel true failOneItem).barCount ≠ totalCount failOneItem := by
  decide

/-- C2 amended: the progress counter total after a run equals the sum of
per-item file counts over the dequeued items whose API call returned
without raising, and never exceeds the sum over all dequeued items. -/
theorem bar_count_ok_items (startupOk : Bool) (items : List WorkItemRes) :
    (runModel startupOk items).barCount = okCount items ∧
    okCount items ≤ totalCount items := by
  refine ⟨?_, okCount_le_totalCount items⟩
  unfold runModel
  rw [foldl_barCount]
  simp

/-- A run whose only dequeued item has an empty-string payload and whose
API call raises. -/
def failEmptyItem : List WorkItemRes :=
  [⟨"", .error "ERROR: The SCANOSS API request timed out"⟩]

/-- C3: evaluation at the failing input.  One item with payload `""` is
dequeued and its scan raises, yet `task_done` is never called: the
exception handler guards it with Python's `if wfp:`, which is false for
the empty string, so `inputs.join()` would wait forever on this item. -/
theorem task_done_skipped_for_empty_payload :
    (runModel true failEmptyItem).tasksDone = 0 ∧
    failEmptyItem.length = 1 ∧
    (runModel true failEmptyItem).tasksDone ≠ failEmptyItem.length := by
  decide

/-- A run where the first dequeued item fails fatally (retry cap
exceeded) and a second item sits behind it in the queue. -/
def fatalThenMore : List WorkItemRes :=
  [⟨"file=abc,1,a.c", .error "ERROR: The SCANOSS API request timed out"⟩,
   ⟨"file=def,2,b.c", .ok (some (.json ⟨[("b.c", ["match"])]⟩))⟩]

/-- C4 counterexample: after the first item records a fatal error, the
worker loop simply continues: the item enqueued behind the failed one is
still dequeued and posted to the API (2 scan calls, not 1), and its
response lands in the result collection.  The run does not abort early. -/
theorem fatal_error_does_not_abort :
    (runModel true fatalThenMore).scanCalls = 2 ∧
    ¬ (runModel true fatalThenMore).scanCalls ≤ 1 ∧
    (runModel true fatalThenMore).output ≠ [] ∧
    run_returns true fatalThenMore = false := by
  decide

/-- C4 amended: after any worker records a fatal error, the run-level
error flag is set and `run` reports failure, but remaining queued items
are not skipped: every dequeued item still incurs its own API call with
its own retry budget. -/
theorem fatal_error_flags_run (startupOk : Bool) (items : List WorkItemRes)
    (h : items.any itemErrored = true) :
    run_returns startupOk items = false ∧
    (runModel startupOk items).scanCalls = items.length := by
  constructor
  · unfold run_returns runModel
    rw [foldl_errors]
    simp [h]
  · unfold runModel
    rw [foldl_scanCalls]
    simp

/-- C4 amended, witness at the two-item run above. -/
theorem fatal_error_flags_run_witness :
    run_returns true fatalThenMore = false ∧
    (runModel true fatalThenMore).scanCalls = fatalThenMore.length :=
  fatal_error_flags_run true fatalThenMore (by decide)

/-- A run with one successful item followed by one fatally failing item:
the flag is false yet a response was collected. -/
def mixedItems : List WorkItemRes :=
  [⟨"file=abc,1,a.c", .ok (some (.json ⟨[("a.c", ["match"])]⟩))⟩,
   ⟨"file=def,2,b.c", .error "ERROR: The SCANOSS API request timed out"⟩]

/-- C8: `run` returns true exactly when neither the pool start-up step nor
any worker recorded an error; and the collected responses are exposed
separately, possibly non-empty even when the flag is false (witnessed by a
mixed run). -/
theorem run_returns_no_errors (startupOk : Bool) (items : List WorkItemRes) :
    run_returns startupOk items = (startupOk && !items.any itemErrored) ∧
    (run_returns true mixedItems = false ∧ (runModel true mixedItems).output ≠ []) := by
  constructor
  · unfold run_returns runModel
    rw [foldl_errors]
    cases startupOk <;> simp
  · decide

/-- C1: the retry loop of `ScanossApi.scan` makes at most 6 POST attempts;
a failure sequence of connection errors on attempts 1-4 followed by a
success on attempt 5 yields that single response without raising (4 sleeps
of 5, 5 attempts); each retryable failure (connection/timeout error, empty
response object, or HTTP status >= 400) before the last attempt is
followed by a fixed 5-unit sleep and one more attempt; and a sequence
where all 6 attempts fail retryably ends in a raised fatal error. -/
theorem scan_retry_policy :
    (∀ (att : Nat → AttemptOutcome) (url : String), (scanLoop att url 6).attempts ≤ 6) ∧
    (∀ (att : Nat → AttemptOutcome) (url : String) (r : Resp),
      (∀ i, 1 ≤ i → i ≤ 4 → att i = .connError) →
      att 5 = .resp (some r) → r.status < 400 →
      (scanLoop att url 6).result = Except.ok r ∧
      (scanLoop att url 6).sleeps = [5, 5, 5, 5] ∧
      (scanLoop att url 6).attempts = 5) ∧
    (∀ (att : Nat → AttemptOutcome) (url : String) (fuel n : Nat),
      6 - fuel = n → retryableFailure (att n) = true → fuel ≠ 0 →
      scanLoop att url (fuel + 1) =
        ⟨(scanLoop att url fuel).result, 5 :: (scanLoop att url fuel).sleeps,
         (scanLoop att url fuel).attempts + 1⟩) ∧
    (∀ (att : Nat → AttemptOutcome) (url : String),
      (∀ i, 1 ≤ i → i ≤ 6 → retryableFailure (att i) = true) →
      ∃ m, (scanLoop att url 6).result = Except.error m) := by
  refine ⟨fun att url => scanLoop_attempts_le att url 6, ?_,
    fun att url fuel n hn h hf => scanLoop_retry_step att url fuel n hn h hf,
    fun att url h => scanLoop_all_fail att url h 6 (by omega)⟩
  intro att url r hconn hsucc hstat
  have h1 := hconn 1 (by omega) (by omega)
  have h2 := hconn 2 (by omega) (by omega)
  have h3 := hconn 3 (by omega) (by omega)
  have h4 := hconn 4 (by omega) (by omega)
  have hge : ¬ r.status ≥ 400 := by omega
  have e2 : scanLoop att url 2 = ⟨.ok r, [], 1⟩ :=
    scanLoop_success_step att url 1 5 r (by decide) hsucc hge
  have e3 : scanLoop att url 3 =
      ⟨(scanLoop att url 2).result, 5 :: (scanLoop att url 2).sleeps,
       (scanLoop att url 2).attempts + 1⟩ :=
    scanLoop_conn_step att url 2 4 (by decide) h4 (by decide)
  have e4 : scanLoop att url 4 =
      ⟨(scanLoop att url 3).result, 5 :: (scanLoop att url 3).sleeps,
       (scanLoop att url 3).attempts + 1⟩ :=
    scanLoop_conn_step att url 3 3 (by decide) h3 (by decide)
  have e5 : scanLoop att url 5 =
      ⟨(scanLoop att url 4).result, 5 :: (scanLoop att url 4).sleeps,
       (scanLoop att url 4).attempts + 1⟩ :=
    scanLoop_conn_step att url 4 2 (by decide) h2 (by decide)
  have e6 : scanLoop att url 6 =
      ⟨(scanLoop att url 5).result, 5 :: (scanLoop att url 5).sleeps,
       (scanLoop att url 5).attempts + 1⟩ :=
    scanLoop_conn_step att url 5 1 (by decide) h1 (by decide)
  refine ⟨?_, ?_, ?_⟩ <;> simp [e6, e5, e4, e3, e2]

/-- A response that succeeds on attempt 5 after 4 connection errors. -/
def respGood : Resp := ⟨200, "result", some ⟨[("a.c", ["pkg"])]⟩⟩

/-- An attempt oracle: connection errors on attempts 1-4, success after. -/
def attConnThenOk : Nat → AttemptOutcome :=
  fun i => if i ≤ 4 then .connError else .resp (some respGood)

/-- An attempt oracle that always fails with a connection error. -/
def attAllConn : Nat → AttemptOutcome := fun _ => .connError

/-- C1 witness: the retry policy applied to a concrete oracle failing on
attempts 1-4 and succeeding on attempt 5, one retry-step at a concrete
failed attempt, and a concrete oracle failing on all attempts. -/
theorem scan_retry_policy_witness :
    ((scanLoop attConnThenOk "testurl" 6).result = Except.ok respGood ∧
     (scanLoop attConnThenOk "testurl" 6).sleeps = [5, 5, 5, 5] ∧
     (scanLoop attConnThenOk "testurl" 6).attempts = 5) ∧
    (scanLoop attAllConn "testurl" 6 =
      ⟨(scanLoop attAllConn "testurl" 5).result, 5 :: (scanLoop attAllConn "testurl" 5).sleeps,
       (scanLoop attAllConn "testurl" 5).attempts + 1⟩) ∧
    (∃ m, (scanLoop attAllConn "testurl" 6).result = Except.error m) := by
  refine ⟨scan_retry_policy.2.1 attConnThenOk "testurl" respGood ?_ ?_ ?_,
    scan_retry_policy.2.2.1 attAllConn "testurl" 5 1 ?_ ?_ ?_,
    scan_retry_policy.2.2.2 attAllConn "testurl" ?_⟩
  · intro i hi1 hi2
    simp [attConnThenOk, hi2]
  · decide
  · decide
  · decide
  · rfl
  · decide
  · intro i _ _
    rfl

/-- C6: when the response body fails to parse as JSON (and the format is
not xml-style), `ScanossApi.scan` does not raise: it returns `None`, and
the diagnostic file it writes is named from the worker identifier and the
timestamp and its content contains both the originating payload and the
raw response body; the run continues. -/
theorem scan_malformed_response (att : Nat → AttemptOutcome)
    (url fmt uuidHex wfp : String) (i ctime : Nat) (r : Resp)
    (hloop : (scanLoop att url 6).result = Except.ok r)
    (hfmt : strContains "xml" fmt = false)
    (hjson : r.json = none)
    (hid : i ≠ 0) :
    scan att url fmt uuidHex wfp (some i) ctime =
      Except.ok ⟨none, some ("bad_json-" ++ toString i ++ "-" ++ toString ctime ++ ".txt",
        badJsonContent uuidHex wfp r.text)⟩ ∧
    (∃ a b, badJsonContent uuidHex wfp r.text = a ++ wfp ++ b) ∧
    (∃ a b, badJsonContent uuidHex wfp r.text = a ++ r.text ++ b) := by
  refine ⟨?_, ?_, ?_⟩
  · unfold scan
    rw [hloop]
    unfold scanParse badJsonName
    simp [hfmt, hjson, hid]
  · refine ⟨"---WFP Begin---\n" ++ "\x7b\x27file\x27: (\x27" ++ uuidHex ++ ".wfp\x27, \x27",
      "\x27)\x7d" ++ ("\n---WFP End---\n---Bad JSON Begin---\n" ++ r.text ++ "---Bad JSON End---\n"), ?_⟩
    unfold badJsonContent scanFilesRepr
    simp only [String.append_assoc]
  · refine ⟨"---WFP Begin---\n" ++ scanFilesRepr uuidHex wfp ++ "\n---WFP End---\n---Bad JSON Begin---\n",
      "---Bad JSON End---\n", ?_⟩
    unfold badJsonContent
    simp only [String.append_assoc]

/-- A response whose body is not valid JSON. -/
def respBadJson : Resp := ⟨200, "this is not json", none⟩

/-- An attempt oracle that immediately returns the malformed response. -/
def attBadJson : Nat → AttemptOutcome := fun _ => .resp (some respBadJson)

/-- C6 witness: the malformed-response behaviour at a concrete scan. -/
theorem scan_malformed_response_witness :
    scan attBadJson "testurl" "plain" "uuidabc" "file=abc,1,a.c" (some 7) 1234 =
      Except.ok ⟨none, some ("bad_json-" ++ toString 7 ++ "-" ++ toString 1234 ++ ".txt",
        badJsonContent "uuidabc" "file=abc,1,a.c" respBadJson.text)⟩ ∧
    (∃ a b, badJsonContent "uuidabc" "file=abc,1,a.c" respBadJson.text = a ++ "file=abc,1,a.c" ++ b) ∧
    (∃ a b, badJsonContent "uuidabc" "file=abc,1,a.c" respBadJson.text = a ++ respBadJson.text ++ b) :=
  scan_malformed_response attBadJson "testurl" "plain" "uuidabc" "file=abc,1,a.c" 7 1234
    respBadJson (by decide) (by decide) (by decide) (by decide)
